import Mathlib

/-!
Shallow embedding of the `nobreak` circuit breaker (JS):
the Circuit state machine, the in-memory registry (instances + persisted
stats snapshots), the per-key override resolver, and the Command executor.
Machine numbers are modelled as `Nat` (counters, timestamps in ms) and the
error-percentage computation as exact rationals.
-/

namespace Nobreak

/-- Circuit state enums (src/states.js). -/
inductive CircuitStates where
  | OPEN
  | HALF_OPEN
  | CLOSED
deriving DecidableEq, Repr

/-- Persisted stats snapshot stored in `CircuitDataDictionary`
(the `opts` object written by `finishWorkflow`). -/
structure CircuitStats where
  totalCalls : Nat
  errorCalls : Nat
  ongoingSleepWindow : Option Nat
  state : CircuitStates
deriving DecidableEq, Repr

/-- A live `Circuit` instance (constructor `Circuit` in the source). -/
structure Circuit where
  commandkey : String
  state : CircuitStates
  totalCalls : Nat
  errorCalls : Nat
  requestVolumeThreshold : Nat
  errorThreshold : Nat
  sleepWindowInMilliseconds : Nat
  ongoingSleepWindow : Option Nat
  forceOpen : Bool
deriving DecidableEq, Repr

/-- The per-key override resolver (`IndividualConfig`, one env lookup per
field; `none` models an absent env var, and `forceOpen` carries the Joi
`default(false)` so it is always a boolean). -/
structure IndividualConfig where
  requestVolumeThreshold : Option Nat
  errorPercentageThreshold : Option Nat
  sleepWindowInMilliseconds : Option Nat
  forceOpen : Bool

/-- JavaScript `a || b` on an optional number: `undefined` and `0` are falsy
and fall through to the default. -/
def jsOrNum : Option Nat → Nat → Nat
  | none, d => d
  | some v, d => if v = 0 then d else v

/-- The `Circuit` constructor: CLOSED, zeroed counters, thresholds resolved
with `IndividualConfig.x(key) || supplied`, `forceOpen` from the resolver. -/
def Circuit.init (ic : IndividualConfig) (commandKey : String)
    (requestVolumeThreshold errorPercentageThreshold sleepWindowInMilliseconds : Nat) :
    Circuit :=
  { commandkey := commandKey
    state := CircuitStates.CLOSED
    totalCalls := 0
    errorCalls := 0
    requestVolumeThreshold := jsOrNum ic.requestVolumeThreshold requestVolumeThreshold
    errorThreshold := jsOrNum ic.errorPercentageThreshold errorPercentageThreshold
    sleepWindowInMilliseconds := jsOrNum ic.sleepWindowInMilliseconds sleepWindowInMilliseconds
    ongoingSleepWindow := none
    forceOpen := ic.forceOpen || false }

/-- `isSleepWindowOver(circuit)`: `!!(val && new Date(val) < new Date())`,
with JS truthiness (`0` is falsy) on the expiry value. -/
def isSleepWindowOver (circuit : Circuit) (now : Nat) : Bool :=
  match circuit.ongoingSleepWindow with
  | none => false
  | some val => decide (val ≠ 0) && decide (val < now)

/-- `Circuit.prototype.reloadStats`, with the snapshot looked up by the
caller (`CircuitDataDictionary.get(this.commandkey)`) passed in, and the
current clock `now` passed for `new Date()`. -/
def Circuit.reloadStats (c : Circuit) (stats : Option CircuitStats) (now : Nat) : Circuit :=
  match stats with
  | none => c
  | some stats =>
    let c := { c with totalCalls := stats.totalCalls, errorCalls := stats.errorCalls }
    if isSleepWindowOver c now then
      { c with ongoingSleepWindow := none, state := CircuitStates.HALF_OPEN }
    else
      { c with state := stats.state, ongoingSleepWindow := stats.ongoingSleepWindow }

/-- `Circuit.prototype.allowExecution`. -/
def Circuit.allowExecution (c : Circuit) : Bool :=
  !c.forceOpen &&
    (decide (c.state = CircuitStates.CLOSED) || decide (c.state = CircuitStates.HALF_OPEN))

/-- `Circuit.prototype.isHalfOpen`. -/
def Circuit.isHalfOpen (c : Circuit) : Bool :=
  decide (c.state = CircuitStates.HALF_OPEN)

/-- `Circuit.prototype.registerCall`. -/
def Circuit.registerCall (c : Circuit) : Circuit :=
  { c with totalCalls := c.totalCalls + 1 }

/-- `Circuit.prototype.markSuccess`. -/
def Circuit.markSuccess (c : Circuit) : Circuit :=
  { c with state := CircuitStates.CLOSED, totalCalls := 0, errorCalls := 0 }

/-- The snapshot object built by `finishWorkflow`. -/
def CircuitStats.ofCircuit (c : Circuit) : CircuitStats :=
  { totalCalls := c.totalCalls
    errorCalls := c.errorCalls
    ongoingSleepWindow := c.ongoingSleepWindow
    state := c.state }

/-- `Circuit.prototype.finishWorkflow`: one write to `CircuitDataDictionary`
at the circuit's own key. -/
def Circuit.finishWorkflow (c : Circuit) (data : String → Option CircuitStats) :
    String → Option CircuitStats :=
  fun k => if k = c.commandkey then some (CircuitStats.ofCircuit c) else data k

/-- `Circuit.prototype.registerErrorAndCalculateMetrics`. The JS function is
declared with no parameters, so the three arguments the executor passes
(`commandKey`, `errorThreshold`, `sleepWindowInMillis`) are dropped by the
calling convention; they are kept in the signature here, unused. Ends with
the internal `finishWorkflow()` write. -/
def Circuit.registerErrorAndCalculateMetrics (c : Circuit) (ck : String) (pArg sArg : Nat)
    (now : Nat) (data : String → Option CircuitStats) :
    Circuit × (String → Option CircuitStats) :=
  let c := { c with errorCalls := c.errorCalls + 1 }
  let c :=
    if c.totalCalls ≥ c.requestVolumeThreshold ∧
        (c.errorCalls : ℚ) / (c.totalCalls : ℚ) * 100 ≥ (c.errorThreshold : ℚ) then
      { c with state := CircuitStates.OPEN
               ongoingSleepWindow := some (now + c.sleepWindowInMilliseconds) }
    else c
  (c, c.finishWorkflow data)

/-- The two module-level dictionaries of circuit.js. -/
structure Registry where
  circuitData : String → Option CircuitStats
  circuitInstances : String → Option Circuit

def Registry.empty : Registry := ⟨fun _ => none, fun _ => none⟩

/-- `module.exports.getInstance`. For an existing instance the in-place
mutation done by `reloadStats` is reflected by re-storing the updated
instance under the lookup key. -/
def getInstance (reg : Registry) (ic : IndividualConfig) (commandKey : String)
    (requestVolumeThreshold errorPercentageThreshold sleepWindowInMilliseconds now : Nat) :
    Circuit × Registry :=
  match reg.circuitInstances commandKey with
  | some inst =>
      let inst := inst.reloadStats (reg.circuitData inst.commandkey) now
      (inst,
       { reg with circuitInstances :=
          fun k => if k = commandKey then some inst else reg.circuitInstances k })
  | none =>
      let circuit := Circuit.init ic commandKey
        requestVolumeThreshold errorPercentageThreshold sleepWindowInMilliseconds
      (circuit,
       { reg with circuitInstances :=
          fun k => if k = commandKey then some circuit else reg.circuitInstances k })

/-! # Command executor (src/command.js) -/

/-- JavaScript error values the pipeline distinguishes:
the bluebird `Promise.TimeoutError`, the `Boom.gatewayTimeout(null, inner)`
wrapper, an arbitrary user/action error, and `CircuitOpenException(key)`. -/
inductive JsError where
  | timeoutError
  | boomGatewayTimeout (inner : JsError)
  | userError (code : Nat)
  | circuitOpen (commandKey : String)
deriving DecidableEq, Repr

/-- The settled outcome of racing `action(...params).timeout(t)`:
either the action's resolution value, or the raised error — which is
`timeoutError` when the deadline fired first. -/
inductive ActionOutcome where
  | success (value : String)
  | failure (err : JsError)
deriving DecidableEq, Repr

/-- How an `execute()` promise settles. -/
inductive ExecResult where
  | resolved (value : String)
  | rejected (e : JsError)
deriving DecidableEq, Repr

/-- The `opts` bag of a fully configured Command (fields relevant to the
state machine; `timeout` only shapes the `ActionOutcome` and is left out).
The fallback may itself resolve or reject. -/
structure CommandOpts where
  key : String
  traceId : Option String
  requestVolumeThreshold : Nat
  errorThreshold : Nat
  sleepWindowInMillis : Nat
  fallback : Option (Option JsError → ExecResult)
  errorFilter : Option (JsError → Bool)
  errorHandler : Option (JsError → JsError)
  isLogEnable : Bool

/-- The error-classification pipeline at the top of the `.catch` block:
`let exception = err`; map a raw `TimeoutError` through
`Boom.gatewayTimeout(null, exception)`; then, if an `errorHandler` is
configured, `exception = this.opts.errorHandler(err)` — note the source
applies the handler to `err`, the original raised error. -/
def computeException (cmd : CommandOpts) (err : JsError) : JsError :=
  let exception := if err = JsError.timeoutError then JsError.boomGatewayTimeout err else err
  match cmd.errorHandler with
  | some handler => handler err
  | none => exception

/-- `this.opts.errorFilter && this.opts.errorFilter(exception, ...params)`. -/
def filterSays (cmd : CommandOpts) (exception : JsError) : Bool :=
  match cmd.errorFilter with
  | some f => f exception
  | none => false

/-- Everything observable about one `execute()` call: the settled result,
the final circuit, the registry afterwards, whether the action ran, the
argument handed to the fallback (`none` when the fallback never ran), the
error handed to `Logger.warn` (if any), and how many snapshot writes
(`finishWorkflow` calls) happened. -/
structure ExecOutcome where
  result : ExecResult
  circuit : Circuit
  reg : Registry
  actionInvoked : Bool
  fallbackArg : Option (Option JsError)
  loggedErr : Option JsError
  commitCount : Nat

/-- `resumeWithFallback(err, command, ...params)`: returns the settled
result, the argument the fallback received (if invoked), and the error
logged by `Logger.warn` (if logging is on and an error is present). -/
def resumeWithFallback (err : Option JsError) (cmd : CommandOpts) :
    ExecResult × Option (Option JsError) × Option JsError :=
  let logged := if cmd.isLogEnable then err else none
  match cmd.fallback with
  | some fb => (fb err, some err, logged)
  | none =>
      (ExecResult.rejected (err.getD (JsError.circuitOpen cmd.key)), none, logged)

/-- `Command.prototype.execute`: resolve the circuit, register the call,
gate on `allowExecution`, and dispatch on the action's settled outcome.
The in-place mutation of the shared instance is reflected by re-storing the
final circuit in the instances dictionary. -/
def executeCmd (cmd : CommandOpts) (ic : IndividualConfig) (reg : Registry)
    (actionOutcome : ActionOutcome) (now : Nat) : ExecOutcome :=
  let gi := getInstance reg ic cmd.key
    cmd.requestVolumeThreshold cmd.errorThreshold cmd.sleepWindowInMillis now
  let reg1 := gi.2
  let circuit := gi.1.registerCall
  if circuit.allowExecution = true then
    match actionOutcome with
    | ActionOutcome.success value =>
        let circuit := if circuit.isHalfOpen = true then circuit.markSuccess else circuit
        let data := circuit.finishWorkflow reg1.circuitData
        { result := ExecResult.resolved value
          circuit := circuit
          reg := ⟨data, fun k => if k = cmd.key then some circuit else reg1.circuitInstances k⟩
          actionInvoked := true
          fallbackArg := none
          loggedErr := none
          commitCount := 1 }
    | ActionOutcome.failure err =>
        let exception := computeException cmd err
        if filterSays cmd exception = true then
          let data := circuit.finishWorkflow reg1.circuitData
          { result := ExecResult.rejected exception
            circuit := circuit
            reg := ⟨data, fun k => if k = cmd.key then some circuit else reg1.circuitInstances k⟩
            actionInvoked := true
            fallbackArg := none
            loggedErr := none
            commitCount := 1 }
        else
          let rr := circuit.registerErrorAndCalculateMetrics
            cmd.key cmd.errorThreshold cmd.sleepWindowInMillis now reg1.circuitData
          let circuit := rr.1
          let data := rr.2
          let fb := resumeWithFallback (some exception) cmd
          { result := fb.1
            circuit := circuit
            reg := ⟨data, fun k => if k = cmd.key then some circuit else reg1.circuitInstances k⟩
            actionInvoked := true
            fallbackArg := fb.2.1
            loggedErr := fb.2.2
            commitCount := 1 }
  else
    let data := circuit.finishWorkflow reg1.circuitData
    let fb := resumeWithFallback none cmd
    { result := fb.1
      circuit := circuit
      reg := ⟨data, fun k => if k = cmd.key then some circuit else reg1.circuitInstances k⟩
      actionInvoked := false
      fallbackArg := fb.2.1
      loggedErr := fb.2.2
      commitCount := 1 }

/-- Sequential driver: run `n` calls of the same command, every action
settling via `outcome`, all at clock `now`. Returns the final registry, the
per-call list of `actionInvoked` flags (in call order), and the number of
fallback invocations. -/
def runCalls (cmd : CommandOpts) (ic : IndividualConfig) (outcome : ActionOutcome) (now : Nat) :
    Nat → Registry → Registry × List Bool × Nat
  | 0, reg => (reg, [], 0)
  | n + 1, reg =>
      let o := executeCmd cmd ic reg outcome now
      let rest := runCalls cmd ic outcome now n o.reg
      (rest.1, o.actionInvoked :: rest.2.1,
        (if o.fallbackArg.isSome then 1 else 0) + rest.2.2)

/-! # Kernel-evaluable twin of the executor

`Rat` normalization does not reduce in the kernel, so concrete traces are
evaluated through a twin of `executeCmd` whose health check is the
equivalent integer comparison `p * t ≤ e * 100` (equivalent to the
rational `e / t * 100 ≥ p` whenever `t > 0`, which `registerCall` always
guarantees at the check). The twin is proved equal to `executeCmd`. -/

/-- Integer form of the health check of `registerErrorAndCalculateMetrics`. -/
def healthTripB (rvt p e t : Nat) : Bool :=
  decide (rvt ≤ t) && decide (p * t ≤ e * 100)

/-- `registerErrorAndCalculateMetrics` with the integer health check. -/
def Circuit.registerErrorFast (c : Circuit) (now : Nat)
    (data : String → Option CircuitStats) :
    Circuit × (String → Option CircuitStats) :=
  let c := { c with errorCalls := c.errorCalls + 1 }
  let c :=
    if healthTripB c.requestVolumeThreshold c.errorThreshold c.errorCalls c.totalCalls = true then
      { c with state := CircuitStates.OPEN
               ongoingSleepWindow := some (now + c.sleepWindowInMilliseconds) }
    else c
  (c, c.finishWorkflow data)

theorem healthTrip_iff (rvt p e t : Nat) (ht : 0 < t) :
    (t ≥ rvt ∧ (e : ℚ) / (t : ℚ) * 100 ≥ (p : ℚ)) ↔ healthTripB rvt p e t = true := by
  unfold healthTripB
  rw [Bool.and_eq_true, decide_eq_true_eq, decide_eq_true_eq]
  have ht' : (0 : ℚ) < (t : ℚ) := by exact_mod_cast ht
  constructor
  · rintro ⟨h1, h2⟩
    refine ⟨h1, ?_⟩
    rw [ge_iff_le, div_mul_eq_mul_div, le_div_iff₀ ht'] at h2
    exact_mod_cast h2
  · rintro ⟨h1, h2⟩
    refine ⟨h1, ?_⟩
    rw [ge_iff_le, div_mul_eq_mul_div, le_div_iff₀ ht']
    exact_mod_cast h2

theorem registerError_eq_fast (c : Circuit) (ck : String) (pArg sArg now : Nat)
    (data : String → Option CircuitStats) (ht : 0 < c.totalCalls) :
    c.registerErrorAndCalculateMetrics ck pArg sArg now data =
      c.registerErrorFast now data := by
  unfold Circuit.registerErrorAndCalculateMetrics Circuit.registerErrorFast
  dsimp only
  have h := healthTrip_iff c.requestVolumeThreshold c.errorThreshold (c.errorCalls + 1)
    c.totalCalls ht
  by_cases hc : healthTripB c.requestVolumeThreshold c.errorThreshold (c.errorCalls + 1)
      c.totalCalls = true
  · rw [if_pos (h.mpr hc), if_pos hc]
  · rw [if_neg (fun hh => hc (h.mp hh)), if_neg hc]

/-- `executeCmd` with the integer health check. -/
def executeCmdFast (cmd : CommandOpts) (ic : IndividualConfig) (reg : Registry)
    (actionOutcome : ActionOutcome) (now : Nat) : ExecOutcome :=
  let gi := getInstance reg ic cmd.key
    cmd.requestVolumeThreshold cmd.errorThreshold cmd.sleepWindowInMillis now
  let reg1 := gi.2
  let circuit := gi.1.registerCall
  if circuit.allowExecution = true then
    match actionOutcome with
    | ActionOutcome.success value =>
        let circuit := if circuit.isHalfOpen = true then circuit.markSuccess else circuit
        let data := circuit.finishWorkflow reg1.circuitData
        { result := ExecResult.resolved value
          circuit := circuit
          reg := ⟨data, fun k => if k = cmd.key then some circuit else reg1.circuitInstances k⟩
          actionInvoked := true
          fallbackArg := none
          loggedErr := none
          commitCount := 1 }
    | ActionOutcome.failure err =>
        let exception := computeException cmd err
        if filterSays cmd exception = true then
          let data := circuit.finishWorkflow reg1.circuitData
          { result := ExecResult.rejected exception
            circuit := circuit
            reg := ⟨data, fun k => if k = cmd.key then some circuit else reg1.circuitInstances k⟩
            actionInvoked := true
            fallbackArg := none
            loggedErr := none
            commitCount := 1 }
        else
          let rr := circuit.registerErrorFast now reg1.circuitData
          let circuit := rr.1
          let data := rr.2
          let fb := resumeWithFallback (some exception) cmd
          { result := fb.1
            circuit := circuit
            reg := ⟨data, fun k => if k = cmd.key then some circuit else reg1.circuitInstances k⟩
            actionInvoked := true
            fallbackArg := fb.2.1
            loggedErr := fb.2.2
            commitCount := 1 }
  else
    let data := circuit.finishWorkflow reg1.circuitData
    let fb := resumeWithFallback none cmd
    { result := fb.1
      circuit := circuit
      reg := ⟨data, fun k => if k = cmd.key then some circuit else reg1.circuitInstances k⟩
      actionInvoked := false
      fallbackArg := fb.2.1
      loggedErr := fb.2.2
      commitCount := 1 }

theorem executeCmd_eq_fast (cmd : CommandOpts) (ic : IndividualConfig) (reg : Registry)
    (actionOutcome : ActionOutcome) (now : Nat) :
    executeCmd cmd ic reg actionOutcome now = executeCmdFast cmd ic reg actionOutcome now := by
  have hreg := registerError_eq_fast
    ((getInstance reg ic cmd.key cmd.requestVolumeThreshold cmd.errorThreshold
        cmd.sleepWindowInMillis now).1.registerCall)
    cmd.key cmd.errorThreshold cmd.sleepWindowInMillis now
    ((getInstance reg ic cmd.key cmd.requestVolumeThreshold cmd.errorThreshold
        cmd.sleepWindowInMillis now).2.circuitData)
    (Nat.succ_pos _)
  simp only [executeCmd, executeCmdFast]
  rw [hreg]

/-- `runCalls` over the twin executor. -/
def runCallsFast (cmd : CommandOpts) (ic : IndividualConfig) (outcome : ActionOutcome)
    (now : Nat) : Nat → Registry → Registry × List Bool × Nat
  | 0, reg => (reg, [], 0)
  | n + 1, reg =>
      let o := executeCmdFast cmd ic reg outcome now
      let rest := runCallsFast cmd ic outcome now n o.reg
      (rest.1, o.actionInvoked :: rest.2.1,
        (if o.fallbackArg.isSome then 1 else 0) + rest.2.2)

theorem runCalls_eq_fast (cmd : CommandOpts) (ic : IndividualConfig) (outcome : ActionOutcome)
    (now : Nat) : ∀ (n : Nat) (reg : Registry),
    runCalls cmd ic outcome now n reg = runCallsFast cmd ic outcome now n reg
  | 0, reg => rfl
  | n + 1, reg => by
      simp only [runCalls, runCallsFast, executeCmd_eq_fast,
        runCalls_eq_fast cmd ic outcome now n]

/-! # Shared helper lemmas -/

theorem getInstance_circuitData (reg : Registry) (ic : IndividualConfig) (key : String)
    (r p s now : Nat) : (getInstance reg ic key r p s now).2.circuitData = reg.circuitData := by
  unfold getInstance
  cases h : reg.circuitInstances key <;> rfl

theorem getInstance_instances_ne (reg : Registry) (ic : IndividualConfig) (key : String)
    (r p s now : Nat) (k : String) (hk : ¬ k = key) :
    (getInstance reg ic key r p s now).2.circuitInstances k = reg.circuitInstances k := by
  unfold getInstance
  cases h : reg.circuitInstances key
  · simp only [if_neg hk]
  · simp only [if_neg hk]

theorem registerError_counters (c : Circuit) (ck : String) (pArg sArg now : Nat)
    (data : String → Option CircuitStats) :
    (c.registerErrorAndCalculateMetrics ck pArg sArg now data).1.errorCalls = c.errorCalls + 1 ∧
    (c.registerErrorAndCalculateMetrics ck pArg sArg now data).1.totalCalls = c.totalCalls := by
  unfold Circuit.registerErrorAndCalculateMetrics
  dsimp only
  split <;> exact ⟨rfl, rfl⟩

theorem reloadStats_counters (c : Circuit) (s : CircuitStats) (now : Nat) :
    (c.reloadStats (some s) now).errorCalls = s.errorCalls ∧
    (c.reloadStats (some s) now).totalCalls = s.totalCalls := by
  unfold Circuit.reloadStats
  dsimp only
  split <;> exact ⟨rfl, rfl⟩

/-- Per-call characterization of the executor's registry effects: exactly one
snapshot write, at the final circuit's key, and the instance store updated at
the command key only. -/
theorem executeCmd_registry_char (cmd : CommandOpts) (ic : IndividualConfig) (reg : Registry)
    (ao : ActionOutcome) (now : Nat) :
    (executeCmd cmd ic reg ao now).commitCount = 1 ∧
    (executeCmd cmd ic reg ao now).reg.circuitData =
      (executeCmd cmd ic reg ao now).circuit.finishWorkflow reg.circuitData ∧
    (executeCmd cmd ic reg ao now).reg.circuitInstances cmd.key =
      some (executeCmd cmd ic reg ao now).circuit ∧
    (∀ k, ¬ k = cmd.key →
      (executeCmd cmd ic reg ao now).reg.circuitInstances k = reg.circuitInstances k) := by
  cases ao
  all_goals
    unfold executeCmd
    dsimp only
    rw [getInstance_circuitData]
    repeat' split
    all_goals
      exact ⟨rfl, rfl, by simp, fun k hk => by
        simp only [if_neg hk]
        exact getInstance_instances_ne reg ic cmd.key _ _ _ now k hk⟩

/-! # Concrete fixtures for witnesses and counterexamples -/

/-- Override resolver with every env var absent. -/
def icAbsent : IndividualConfig := ⟨none, none, none, false⟩

/-- A demo circuit in CLOSED state with one registered call. -/
def cDemo : Circuit :=
  { commandkey := "k", state := CircuitStates.CLOSED, totalCalls := 1, errorCalls := 0,
    requestVolumeThreshold := 1, errorThreshold := 50, sleepWindowInMilliseconds := 10,
    ongoingSleepWindow := none, forceOpen := false }

/-- Empty persisted-stats store. -/
def dEmpty : String → Option CircuitStats := fun _ => none

/-! # Claims -/

/-- C1: for an admitted, unfiltered failing call, `registerErrorAndCalculateMetrics`
first increments `errorCalls` and then moves a CLOSED circuit to OPEN exactly when
`totalCalls ≥ requestVolumeThreshold` and `errorCalls / totalCalls * 100 ≥
errorThresholdPercentage` (with the incremented `errorCalls`), in which case the
expiry becomes `now + sleepWindow`; otherwise state and expiry are unchanged. -/
theorem claim1_closed_to_open (c : Circuit) (ck : String) (pArg sArg now : Nat)
    (data : String → Option CircuitStats) (hclosed : c.state = CircuitStates.CLOSED) :
    (c.registerErrorAndCalculateMetrics ck pArg sArg now data).1.errorCalls =
      c.errorCalls + 1 ∧
    ((c.registerErrorAndCalculateMetrics ck pArg sArg now data).1.state =
        CircuitStates.OPEN ↔
      (c.totalCalls ≥ c.requestVolumeThreshold ∧
        ((c.errorCalls + 1 : Nat) : ℚ) / (c.totalCalls : ℚ) * 100 ≥ (c.errorThreshold : ℚ))) ∧
    ((c.totalCalls ≥ c.requestVolumeThreshold ∧
        ((c.errorCalls + 1 : Nat) : ℚ) / (c.totalCalls : ℚ) * 100 ≥ (c.errorThreshold : ℚ)) →
      (c.registerErrorAndCalculateMetrics ck pArg sArg now data).1.ongoingSleepWindow =
        some (now + c.sleepWindowInMilliseconds)) ∧
    (¬ (c.totalCalls ≥ c.requestVolumeThreshold ∧
        ((c.errorCalls + 1 : Nat) : ℚ) / (c.totalCalls : ℚ) * 100 ≥ (c.errorThreshold : ℚ)) →
      (c.registerErrorAndCalculateMetrics ck pArg sArg now data).1.state = c.state ∧
      (c.registerErrorAndCalculateMetrics ck pArg sArg now data).1.ongoingSleepWindow =
        c.ongoingSleepWindow) := by
  unfold Circuit.registerErrorAndCalculateMetrics
  dsimp only
  by_cases hc : c.totalCalls ≥ c.requestVolumeThreshold ∧
      ((c.errorCalls + 1 : Nat) : ℚ) / (c.totalCalls : ℚ) * 100 ≥ (c.errorThreshold : ℚ)
  · rw [if_pos hc]
    exact ⟨rfl, iff_of_true rfl hc, fun _ => rfl, fun hn => absurd hc hn⟩
  · rw [if_neg hc]
    refine ⟨rfl, ?_, fun hcc => absurd hcc hc, fun _ => ⟨rfl, rfl⟩⟩
    simp only [hclosed]
    constructor
    · intro h
      exact absurd h (by simp)
    · intro h
      exact absurd h hc

/-- Witness for C1 at a concrete circuit: one call, one error, thresholds 1 and 50,
so the check `1 ≥ 1 ∧ 1/1*100 ≥ 50` trips the circuit OPEN with expiry `5 + 10`. -/
theorem claim1_closed_to_open_witness :
    (cDemo.registerErrorAndCalculateMetrics "k" 0 0 5 dEmpty).1.state = CircuitStates.OPEN :=
  ((claim1_closed_to_open cDemo "k" 0 0 5 dEmpty rfl).2.1).mpr
    ⟨by norm_num [cDemo], by norm_num [cDemo]⟩

/-- C7: every `execute()` writes the persisted snapshot
{totalCalls, errorCalls, ongoingSleepWindowExpiry, state} for the circuit's key
exactly once (`commitCount = 1`), overwriting any prior snapshot for that key and
leaving all other keys' snapshots untouched, on every path of the executor. -/
theorem claim7_commit_exactly_once (cmd : CommandOpts) (ic : IndividualConfig) (reg : Registry)
    (ao : ActionOutcome) (now : Nat) :
    (executeCmd cmd ic reg ao now).commitCount = 1 ∧
    (executeCmd cmd ic reg ao now).reg.circuitData
        (executeCmd cmd ic reg ao now).circuit.commandkey =
      some (CircuitStats.ofCircuit (executeCmd cmd ic reg ao now).circuit) ∧
    (∀ k, ¬ k = (executeCmd cmd ic reg ao now).circuit.commandkey →
      (executeCmd cmd ic reg ao now).reg.circuitData k = reg.circuitData k) := by
  obtain ⟨h1, h2, -, -⟩ := executeCmd_registry_char cmd ic reg ao now
  refine ⟨h1, ?_, fun k hk => ?_⟩
  · rw [h2]
    unfold Circuit.finishWorkflow
    simp
  · rw [h2]
    unfold Circuit.finishWorkflow
    simp [hk]

/-- C9 counterexample: the claim says an override value of 0 is used as 0
(`??` semantics). The constructor uses JS `||`, so a resolver override of 0 for
`requestVolumeThreshold` is falsy and falls back to the supplied argument 5. -/
theorem claim9_counterexample :
    (Circuit.init ⟨some 0, none, none, false⟩ "k" 5 50 1000).requestVolumeThreshold = 5 ∧
    ¬ (Circuit.init ⟨some 0, none, none, false⟩ "k" 5 50 1000).requestVolumeThreshold = 0 := by
  constructor <;> decide

/-- C9 (amended): on the first resolve for a key the new Circuit has state CLOSED,
zeroed counters, no expiry, each threshold equal to the override resolver's value
when present and nonzero and otherwise the supplied argument (JS `||`, so an
override of 0 falls back to the supplied argument), and forceOpen equal to the
resolver's boolean. -/
theorem claim9_init_fields (reg : Registry) (ic : IndividualConfig) (key : String)
    (rvt ept sw now : Nat) (hnew : reg.circuitInstances key = none) :
    (getInstance reg ic key rvt ept sw now).1 = Circuit.init ic key rvt ept sw ∧
    (Circuit.init ic key rvt ept sw).commandkey = key ∧
    (Circuit.init ic key rvt ept sw).state = CircuitStates.CLOSED ∧
    (Circuit.init ic key rvt ept sw).totalCalls = 0 ∧
    (Circuit.init ic key rvt ept sw).errorCalls = 0 ∧
    (Circuit.init ic key rvt ept sw).ongoingSleepWindow = none ∧
    (Circuit.init ic key rvt ept sw).requestVolumeThreshold =
      (match ic.requestVolumeThreshold with
       | some v => if v = 0 then rvt else v
       | none => rvt) ∧
    (Circuit.init ic key rvt ept sw).errorThreshold =
      (match ic.errorPercentageThreshold with
       | some v => if v = 0 then ept else v
       | none => ept) ∧
    (Circuit.init ic key rvt ept sw).sleepWindowInMilliseconds =
      (match ic.sleepWindowInMilliseconds with
       | some v => if v = 0 then sw else v
       | none => sw) ∧
    (Circuit.init ic key rvt ept sw).forceOpen = ic.forceOpen := by
  refine ⟨?_, rfl, rfl, rfl, rfl, rfl, ?_, ?_, ?_, ?_⟩
  · unfold getInstance
    rw [hnew]
  · obtain ⟨r, p, s, f⟩ := ic
    cases r <;> rfl
  · obtain ⟨r, p, s, f⟩ := ic
    cases p <;> rfl
  · obtain ⟨r, p, s, f⟩ := ic
    cases s <;> rfl
  · unfold Circuit.init
    exact Bool.or_false ic.forceOpen

/-- Witness for C9 (amended) at a fresh registry: the new circuit for key "k"
with thresholds (5, 50, 1000) and no overrides is the constructed one. -/
theorem claim9_init_fields_witness :
    (getInstance Registry.empty icAbsent "k" 5 50 1000 0).1 = Circuit.init icAbsent "k" 5 50 1000 :=
  (claim9_init_fields Registry.empty icAbsent "k" 5 50 1000 0 rfl).1

/-- C10: a circuit's `requestVolumeThreshold`, `errorThreshold` and
`sleepWindowInMilliseconds` are fixed at construction: the arguments the executor
passes to `registerErrorAndCalculateMetrics` are ignored, no circuit operation
(`reloadStats`, `registerCall`, `markSuccess`, `registerErrorAndCalculateMetrics`)
modifies the three fields, and for an existing circuit `execute()` behaves
identically whatever threshold or sleep-window values the Command setters supply. -/
theorem claim10_thresholds_frozen :
    (∀ (c : Circuit) (ck ck' : String) (p p' s s' now : Nat)
        (data : String → Option CircuitStats),
      c.registerErrorAndCalculateMetrics ck p s now data =
        c.registerErrorAndCalculateMetrics ck' p' s' now data) ∧
    (∀ (c : Circuit) (stats : Option CircuitStats) (now : Nat),
      (c.reloadStats stats now).requestVolumeThreshold = c.requestVolumeThreshold ∧
      (c.reloadStats stats now).errorThreshold = c.errorThreshold ∧
      (c.reloadStats stats now).sleepWindowInMilliseconds = c.sleepWindowInMilliseconds) ∧
    (∀ c : Circuit,
      c.registerCall.requestVolumeThreshold = c.requestVolumeThreshold ∧
      c.registerCall.errorThreshold = c.errorThreshold ∧
      c.registerCall.sleepWindowInMilliseconds = c.sleepWindowInMilliseconds) ∧
    (∀ c : Circuit,
      c.markSuccess.requestVolumeThreshold = c.requestVolumeThreshold ∧
      c.markSuccess.errorThreshold = c.errorThreshold ∧
      c.markSuccess.sleepWindowInMilliseconds = c.sleepWindowInMilliseconds) ∧
    (∀ (c : Circuit) (ck : String) (p s now : Nat) (data : String → Option CircuitStats),
      (c.registerErrorAndCalculateMetrics ck p s now data).1.requestVolumeThreshold =
        c.requestVolumeThreshold ∧
      (c.registerErrorAndCalculateMetrics ck p s now data).1.errorThreshold =
        c.errorThreshold ∧
      (c.registerErrorAndCalculateMetrics ck p s now data).1.sleepWindowInMilliseconds =
        c.sleepWindowInMilliseconds) ∧
    (∀ (cmd : CommandOpts) (r' p' s' : Nat) (ic : IndividualConfig) (reg : Registry)
        (ao : ActionOutcome) (now : Nat) (inst : Circuit),
      reg.circuitInstances cmd.key = some inst →
      executeCmd
          { cmd with
            requestVolumeThreshold := r'
            errorThreshold := p'
            sleepWindowInMillis := s' } ic reg ao now =
        executeCmd cmd ic reg ao now) := by
  refine ⟨fun c ck ck' p p' s s' now data => rfl,
    fun c stats now => ?_, fun c => ⟨rfl, rfl, rfl⟩, fun c => ⟨rfl, rfl, rfl⟩,
    fun c ck p s now data => ?_, fun cmd r' p' s' ic reg ao now inst h => ?_⟩
  · unfold Circuit.reloadStats
    cases stats
    · exact ⟨rfl, rfl, rfl⟩
    · dsimp only
      split <;> exact ⟨rfl, rfl, rfl⟩
  · unfold Circuit.registerErrorAndCalculateMetrics
    dsimp only
    split <;> exact ⟨rfl, rfl, rfl⟩
  · rw [executeCmd_eq_fast, executeCmd_eq_fast]
    unfold executeCmdFast getInstance
    dsimp only
    rw [h]
    rfl

/-- Witness for C10: for an existing circuit under key "k", execute with
thresholds (7, 7, 7) equals execute with the original thresholds. -/
theorem claim10_thresholds_frozen_witness :
    executeCmd { key := "k", traceId := none, requestVolumeThreshold := 7, errorThreshold := 7,
                 sleepWindowInMillis := 7, fallback := none, errorFilter := none,
                 errorHandler := none, isLogEnable := false } icAbsent
        ⟨dEmpty, fun k => if k = "k" then some cDemo else none⟩
        (ActionOutcome.success "ok") 0 =
      executeCmd { key := "k", traceId := none, requestVolumeThreshold := 80,
                   errorThreshold := 50, sleepWindowInMillis := 1000, fallback := none,
                   errorFilter := none, errorHandler := none, isLogEnable := false } icAbsent
        ⟨dEmpty, fun k => if k = "k" then some cDemo else none⟩
        (ActionOutcome.success "ok") 0 :=
  claim10_thresholds_frozen.2.2.2.2.2
    { key := "k", traceId := none, requestVolumeThreshold := 80, errorThreshold := 50,
      sleepWindowInMillis := 1000, fallback := none, errorFilter := none,
      errorHandler := none, isLogEnable := false } 7 7 7 icAbsent
    ⟨dEmpty, fun k => if k = "k" then some cDemo else none⟩
    (ActionOutcome.success "ok") 0 cDemo rfl

/-- C2: inside resolve (`getInstance` → `reloadStats`) for an existing circuit,
when the expiry (live field, equal to the persisted one after any commit, and a
real timestamp hence nonzero) exists and `now` is past it, the expiry is cleared
and state forced to HALF_OPEN; otherwise state and expiry are restored verbatim
from the snapshot. A missing snapshot leaves the circuit untouched. No other
operation (`registerCall`, `registerErrorAndCalculateMetrics`, `markSuccess`)
ever produces HALF_OPEN from OPEN, and a fresh circuit starts CLOSED. -/
theorem claim2_open_to_half_open_only_in_resolve :
    (∀ (c : Circuit) (s : CircuitStats) (now : Nat),
      c.ongoingSleepWindow = s.ongoingSleepWindow →
      ¬ s.ongoingSleepWindow = some 0 →
      ((∃ v, s.ongoingSleepWindow = some v ∧ v < now) →
        c.reloadStats (some s) now =
          { c with totalCalls := s.totalCalls, errorCalls := s.errorCalls,
                   ongoingSleepWindow := none, state := CircuitStates.HALF_OPEN }) ∧
      (¬ (∃ v, s.ongoingSleepWindow = some v ∧ v < now) →
        c.reloadStats (some s) now =
          { c with totalCalls := s.totalCalls, errorCalls := s.errorCalls,
                   state := s.state, ongoingSleepWindow := s.ongoingSleepWindow })) ∧
    (∀ (c : Circuit) (now : Nat), c.reloadStats none now = c) ∧
    (∀ c : Circuit, c.state = CircuitStates.OPEN →
      ¬ c.registerCall.state = CircuitStates.HALF_OPEN) ∧
    (∀ (c : Circuit) (ck : String) (pArg sArg now : Nat)
        (data : String → Option CircuitStats), c.state = CircuitStates.OPEN →
      ¬ (c.registerErrorAndCalculateMetrics ck pArg sArg now data).1.state =
        CircuitStates.HALF_OPEN) ∧
    (∀ c : Circuit, ¬ c.markSuccess.state = CircuitStates.HALF_OPEN) ∧
    (∀ (ic : IndividualConfig) (key : String) (r p s : Nat),
      (Circuit.init ic key r p s).state = CircuitStates.CLOSED) := by
  refine ⟨fun c s now hlive hnz => ?_, fun c now => rfl, fun c hc => ?_,
    fun c ck pArg sArg now data hc => ?_, fun c => by simp [Circuit.markSuccess],
    fun ic key r p s => rfl⟩
  · unfold Circuit.reloadStats isSleepWindowOver
    dsimp only
    rw [hlive]
    constructor
    · rintro ⟨v, hv, hvn⟩
      rw [hv]
      dsimp only
      rw [if_pos]
      simp only [Bool.and_eq_true, decide_eq_true_eq]
      exact ⟨fun h0 => hnz (by rw [hv, h0]), hvn⟩
    · intro hno
      cases hs : s.ongoingSleepWindow with
      | none => simp
      | some v =>
          dsimp only
          rw [if_neg]
          simp only [Bool.and_eq_true, decide_eq_true_eq, not_and]
          intro _ hvn
          exact hno ⟨v, hs, hvn⟩
  · simp only [Circuit.registerCall, hc]
    simp
  · unfold Circuit.registerErrorAndCalculateMetrics
    dsimp only
    split
    · simp
    · simp [hc]

/-- An OPEN demo circuit whose sleep window expires at timestamp 5. -/
def cDemoOpen : Circuit :=
  { cDemo with state := CircuitStates.OPEN, ongoingSleepWindow := some 5, errorCalls := 1 }

/-- The matching persisted snapshot for `cDemoOpen`. -/
def sDemoOpen : CircuitStats := ⟨1, 1, some 5, CircuitStates.OPEN⟩

/-- Witness for C2 at a concrete OPEN circuit whose persisted expiry 5 has passed
by `now = 9`: resolve forces HALF_OPEN and clears the expiry. -/
theorem claim2_open_to_half_open_only_in_resolve_witness :
    cDemoOpen.reloadStats (some sDemoOpen) 9 =
      { cDemoOpen with state := CircuitStates.HALF_OPEN, ongoingSleepWindow := none } :=
  ((claim2_open_to_half_open_only_in_resolve.1 cDemoOpen sDemoOpen 9 rfl (by decide)).1
    ⟨5, rfl, by decide⟩).trans (by decide)

/-- C6 counterexample to the clearing clause: a circuit created while the
resolver reports `forceOpen = true` keeps `forceOpen = true` on a later lookup
even though the resolver now reports `false` — `getInstance` returns the cached
instance and `reloadStats` never re-reads the resolver, so the override is never
cleared, contrary to the claim. -/
theorem claim6_counterexample :
    ((getInstance Registry.empty ⟨none, none, none, true⟩ "k" 1 1 1 0).1).forceOpen = true ∧
    ((getInstance (getInstance Registry.empty ⟨none, none, none, true⟩ "k" 1 1 1 0).2
        ⟨none, none, none, false⟩ "k" 1 1 1 0).1).forceOpen = true := by
  constructor <;> decide

/-- C6 (amended): when `forceOpen` is true no call under that key is ever
admitted (the action is never invoked) regardless of counters, state, or
transitions; `forceOpen` is fixed at construction from the override resolver and
is never modified afterwards — neither by any state-machine operation nor by a
later lookup, which returns the cached instance without re-reading the resolver. -/
theorem claim6_force_open (cmd : CommandOpts) (ic : IndividualConfig) (reg : Registry)
    (ao : ActionOutcome) (now : Nat)
    (hforce : ((getInstance reg ic cmd.key cmd.requestVolumeThreshold cmd.errorThreshold
        cmd.sleepWindowInMillis now).1).forceOpen = true) :
    (executeCmd cmd ic reg ao now).actionInvoked = false ∧
    (∀ c : Circuit, c.forceOpen = true → c.allowExecution = false) ∧
    (∀ c : Circuit, c.registerCall.forceOpen = c.forceOpen) ∧
    (∀ c : Circuit, c.markSuccess.forceOpen = c.forceOpen) ∧
    (∀ (c : Circuit) (ck : String) (pArg sArg now : Nat)
        (data : String → Option CircuitStats),
      (c.registerErrorAndCalculateMetrics ck pArg sArg now data).1.forceOpen = c.forceOpen) ∧
    (∀ (c : Circuit) (stats : Option CircuitStats) (now : Nat),
      (c.reloadStats stats now).forceOpen = c.forceOpen) ∧
    (∀ (reg : Registry) (ic : IndividualConfig) (key : String) (r p s now : Nat)
        (inst : Circuit), reg.circuitInstances key = some inst →
      ((getInstance reg ic key r p s now).1).forceOpen = inst.forceOpen) ∧
    (∀ (ic : IndividualConfig) (key : String) (r p s : Nat),
      (Circuit.init ic key r p s).forceOpen = ic.forceOpen) := by
  have hallow : ∀ c : Circuit, c.forceOpen = true → c.allowExecution = false := by
    intro c hc
    unfold Circuit.allowExecution
    rw [hc]
    rfl
  have hreload : ∀ (c : Circuit) (stats : Option CircuitStats) (now : Nat),
      (c.reloadStats stats now).forceOpen = c.forceOpen := by
    intro c stats now
    unfold Circuit.reloadStats
    cases stats
    · rfl
    · dsimp only
      split <;> rfl
  have hregerr : ∀ (c : Circuit) (ck : String) (pArg sArg now : Nat)
      (data : String → Option CircuitStats),
      (c.registerErrorAndCalculateMetrics ck pArg sArg now data).1.forceOpen = c.forceOpen := by
    intro c ck pArg sArg now data
    unfold Circuit.registerErrorAndCalculateMetrics
    dsimp only
    split <;> rfl
  refine ⟨?_, hallow, fun c => rfl, fun c => rfl, hregerr, hreload, ?_, ?_⟩
  · unfold executeCmd
    dsimp only
    rw [if_neg]
    intro hadm
    have : ((getInstance reg ic cmd.key cmd.requestVolumeThreshold cmd.errorThreshold
        cmd.sleepWindowInMillis now).1.registerCall).forceOpen = true := hforce
    rw [hallow _ this] at hadm
    exact Bool.false_ne_true hadm
  · intro reg' ic' key r p s now' inst h
    unfold getInstance
    rw [h]
    exact hreload inst _ now'
  · intro ic' key r p s
    exact Bool.or_false ic'.forceOpen

/-- A command with key "k", thresholds (1, 50, 10) and no callbacks. -/
def cmdPlain : CommandOpts := ⟨"k", none, 1, 50, 10, none, none, none, false⟩

/-- A resolver forcing the circuit open. -/
def icForced : IndividualConfig := ⟨none, none, none, true⟩

/-- Witness for C6 (amended): with the resolver forcing the circuit open, the
gate rejects the call and the action is not invoked. -/
theorem claim6_force_open_witness :
    (executeCmd cmdPlain icForced Registry.empty
        (ActionOutcome.success "ok") 0).actionInvoked = false :=
  (claim6_force_open cmdPlain icForced Registry.empty
    (ActionOutcome.success "ok") 0 (by decide)).1

/-- Witness for C7: one successful call on a fresh registry commits once and
leaves the snapshot of an unrelated key untouched. -/
theorem claim7_commit_exactly_once_witness :
    (executeCmd cmdPlain icAbsent Registry.empty
        (ActionOutcome.success "ok") 0).commitCount = 1 ∧
    (executeCmd cmdPlain icAbsent Registry.empty
        (ActionOutcome.success "ok") 0).reg.circuitData "other" =
      Registry.empty.circuitData "other" :=
  ⟨(claim7_commit_exactly_once cmdPlain icAbsent Registry.empty
      (ActionOutcome.success "ok") 0).1,
   (claim7_commit_exactly_once cmdPlain icAbsent Registry.empty
      (ActionOutcome.success "ok") 0).2.2 "other" (by decide)⟩

/-- The §8 scenario command: requestVolumeThreshold 80, errorThresholdPercentage 50,
a long sleep window, and a fallback that always resolves to FALLBACK. -/
def cmdVolume80 : CommandOpts :=
  ⟨"k", none, 80, 50, 1000, some (fun _ => ExecResult.resolved "FALLBACK"), none, none, false⟩

set_option maxRecDepth 100000 in
/-- C3: with requestVolumeThreshold 80 and errorThresholdPercentage 50, an action
that always rejects and a fallback resolving FALLBACK, 100 sequential calls on a
fresh key invoke the action exactly on calls 1 through 80, the 80th failure moves
the circuit from CLOSED (still CLOSED with 79/79 after call 79) to OPEN with the
sleep window set, calls 81 through 100 are rejected at the gate without invoking
the action, and the fallback runs on all 100 calls. -/
theorem claim3_scenario_100_calls :
    (runCalls cmdVolume80 icAbsent (ActionOutcome.failure (JsError.userError 0)) 0 100
        Registry.empty).2.1 = List.replicate 80 true ++ List.replicate 20 false ∧
    (runCalls cmdVolume80 icAbsent (ActionOutcome.failure (JsError.userError 0)) 0 100
        Registry.empty).2.2 = 100 ∧
    (runCalls cmdVolume80 icAbsent (ActionOutcome.failure (JsError.userError 0)) 0 79
        Registry.empty).1.circuitData "k" =
      some ⟨79, 79, none, CircuitStates.CLOSED⟩ ∧
    (runCalls cmdVolume80 icAbsent (ActionOutcome.failure (JsError.userError 0)) 0 80
        Registry.empty).1.circuitData "k" =
      some ⟨80, 80, some 1000, CircuitStates.OPEN⟩ ∧
    (runCalls cmdVolume80 icAbsent (ActionOutcome.failure (JsError.userError 0)) 0 100
        Registry.empty).1.circuitData "k" =
      some ⟨100, 80, some 1000, CircuitStates.OPEN⟩ := by
  simp only [runCalls_eq_fast]
  refine ⟨by decide, by decide, by decide, by decide, by decide⟩

/-- C4: when the action of an admitted call fails and the configured
`errorFilter` accepts the (possibly handler-substituted) exception, the snapshot
is committed exactly once without touching `errorCalls` or the state, the
fallback is never invoked, nothing is logged, and the call rejects with that
exception. -/
theorem claim4_error_filter_bypass (cmd : CommandOpts) (ic : IndividualConfig)
    (reg : Registry) (err : JsError) (now : Nat) (f : JsError → Bool)
    (hfilter : cmd.errorFilter = some f)
    (hAdm : ((getInstance reg ic cmd.key cmd.requestVolumeThreshold cmd.errorThreshold
        cmd.sleepWindowInMillis now).1.registerCall).allowExecution = true)
    (hf : f (computeException cmd err) = true) :
    (executeCmd cmd ic reg (ActionOutcome.failure err) now).result =
      ExecResult.rejected (computeException cmd err) ∧
    (executeCmd cmd ic reg (ActionOutcome.failure err) now).fallbackArg = none ∧
    (executeCmd cmd ic reg (ActionOutcome.failure err) now).loggedErr = none ∧
    (executeCmd cmd ic reg (ActionOutcome.failure err) now).circuit =
      (getInstance reg ic cmd.key cmd.requestVolumeThreshold cmd.errorThreshold
        cmd.sleepWindowInMillis now).1.registerCall ∧
    (executeCmd cmd ic reg (ActionOutcome.failure err) now).circuit.errorCalls =
      (getInstance reg ic cmd.key cmd.requestVolumeThreshold cmd.errorThreshold
        cmd.sleepWindowInMillis now).1.errorCalls ∧
    (executeCmd cmd ic reg (ActionOutcome.failure err) now).circuit.state =
      (getInstance reg ic cmd.key cmd.requestVolumeThreshold cmd.errorThreshold
        cmd.sleepWindowInMillis now).1.state ∧
    (executeCmd cmd ic reg (ActionOutcome.failure err) now).commitCount = 1 ∧
    (executeCmd cmd ic reg (ActionOutcome.failure err) now).reg.circuitData
        ((getInstance reg ic cmd.key cmd.requestVolumeThreshold cmd.errorThreshold
          cmd.sleepWindowInMillis now).1.commandkey) =
      some (CircuitStats.ofCircuit
        ((getInstance reg ic cmd.key cmd.requestVolumeThreshold cmd.errorThreshold
          cmd.sleepWindowInMillis now).1.registerCall)) := by
  have hfs : filterSays cmd (computeException cmd err) = true := by
    unfold filterSays
    rw [hfilter]
    exact hf
  unfold executeCmd
  dsimp only
  rw [if_pos hAdm, if_pos hfs]
  refine ⟨rfl, rfl, rfl, rfl, rfl, rfl, rfl, ?_⟩
  dsimp only
  rw [getInstance_circuitData]
  unfold Circuit.finishWorkflow
  simp [Circuit.registerCall]

/-- A command whose error filter accepts every exception, with a fallback. -/
def cmdFiltered : CommandOpts :=
  ⟨"k", none, 1, 50, 10, some (fun _ => ExecResult.resolved "FALLBACK"),
    some (fun _ => true), none, false⟩

/-- Witness for C4: a fresh circuit admits the call, the filter accepts the
error, and the call rejects with it while the fallback stays uninvoked. -/
theorem claim4_error_filter_bypass_witness :
    (executeCmd cmdFiltered icAbsent Registry.empty
        (ActionOutcome.failure (JsError.userError 3)) 0).result =
      ExecResult.rejected (JsError.userError 3) ∧
    (executeCmd cmdFiltered icAbsent Registry.empty
        (ActionOutcome.failure (JsError.userError 3)) 0).fallbackArg = none :=
  ⟨(claim4_error_filter_bypass cmdFiltered icAbsent Registry.empty (JsError.userError 3) 0
      (fun _ => true) rfl (by decide) rfl).1,
   (claim4_error_filter_bypass cmdFiltered icAbsent Registry.empty (JsError.userError 3) 0
      (fun _ => true) rfl (by decide) rfl).2.1⟩

/-- A command with an identity `errorHandler`, no filter and no fallback. -/
def cmdIdHandler : CommandOpts :=
  ⟨"k", none, 80, 50, 1000, none, none, some (fun e => e), false⟩

/-- C5 counterexample: with an identity `errorHandler` configured and the action
timing out, the claim predicts the handler is applied to the gateway-timeout
mapping of the deadline error, so the call would reject with
`boomGatewayTimeout timeoutError`; the code instead applies the handler to the
raw `err`, so the call rejects with the unmapped `timeoutError`. -/
theorem claim5_counterexample :
    (executeCmd cmdIdHandler icAbsent Registry.empty
        (ActionOutcome.failure JsError.timeoutError) 0).result =
      ExecResult.rejected JsError.timeoutError ∧
    ¬ (executeCmd cmdIdHandler icAbsent Registry.empty
        (ActionOutcome.failure JsError.timeoutError) 0).result =
      ExecResult.rejected (JsError.boomGatewayTimeout JsError.timeoutError) := by
  rw [executeCmd_eq_fast]
  constructor <;> decide

/-- C5 (amended): on an admitted failing call the timeout error is mapped to the
gateway-timeout wrapper, but that mapped exception reaches the pipeline only when
no `errorHandler` is configured; a configured `errorHandler` is applied to the
original raised error (not the mapped exception) and its result entirely replaces
the error for filtering, logging, fallback and rejection. -/
theorem claim5_handler_applied_to_raw_error (cmd : CommandOpts) (ic : IndividualConfig)
    (reg : Registry) (err : JsError) (now : Nat)
    (hAdm : ((getInstance reg ic cmd.key cmd.requestVolumeThreshold cmd.errorThreshold
        cmd.sleepWindowInMillis now).1.registerCall).allowExecution = true) :
    (∀ handler, cmd.errorHandler = some handler → computeException cmd err = handler err) ∧
    (cmd.errorHandler = none → computeException cmd err =
      (if err = JsError.timeoutError then JsError.boomGatewayTimeout err else err)) ∧
    (filterSays cmd (computeException cmd err) = true →
      (executeCmd cmd ic reg (ActionOutcome.failure err) now).result =
        ExecResult.rejected (computeException cmd err)) ∧
    (filterSays cmd (computeException cmd err) = false →
      (executeCmd cmd ic reg (ActionOutcome.failure err) now).loggedErr =
        (if cmd.isLogEnable then some (computeException cmd err) else none) ∧
      (∀ fb, cmd.fallback = some fb →
        (executeCmd cmd ic reg (ActionOutcome.failure err) now).fallbackArg =
          some (some (computeException cmd err)) ∧
        (executeCmd cmd ic reg (ActionOutcome.failure err) now).result =
          fb (some (computeException cmd err))) ∧
      (cmd.fallback = none →
        (executeCmd cmd ic reg (ActionOutcome.failure err) now).result =
          ExecResult.rejected (computeException cmd err))) := by
  refine ⟨fun handler hh => ?_, fun hn => ?_, fun hfs => ?_, fun hfs => ?_⟩
  · unfold computeException
    rw [hh]
  · unfold computeException
    rw [hn]
  · unfold executeCmd
    dsimp only
    rw [if_pos hAdm, if_pos hfs]
  · unfold executeCmd
    dsimp only
    rw [if_pos hAdm, if_neg (by rw [hfs]; exact Bool.false_ne_true)]
    unfold resumeWithFallback
    refine ⟨?_, fun fb hfb => ?_, fun hn => ?_⟩
    · cases hfb : cmd.fallback <;> rfl
    · rw [hfb]
      exact ⟨rfl, rfl⟩
    · rw [hn]
      rfl

/-- Witness for C5 (amended): a handler replacing any error with `userError 9`
makes an admitted failing call (no filter, no fallback) reject with
`userError 9`. -/
theorem claim5_handler_applied_to_raw_error_witness :
    (executeCmd ⟨"k", none, 80, 50, 1000, none, none, some (fun _ => JsError.userError 9),
        false⟩ icAbsent Registry.empty (ActionOutcome.failure (JsError.userError 1)) 0).result =
      ExecResult.rejected (JsError.userError 9) := by
  have h := (claim5_handler_applied_to_raw_error
    ⟨"k", none, 80, 50, 1000, none, none, some (fun _ => JsError.userError 9), false⟩
    icAbsent Registry.empty (JsError.userError 1) 0 (by decide)).2.2.2 rfl
  exact h.2.2 rfl

/-! # Reachability and the counter invariant (C8) -/

/-- Both stores only hold circuits and snapshots with `errorCalls ≤ totalCalls`. -/
def RegInv (reg : Registry) : Prop :=
  (∀ k c, reg.circuitInstances k = some c → c.errorCalls ≤ c.totalCalls) ∧
  (∀ k s, reg.circuitData k = some s → s.errorCalls ≤ s.totalCalls)

/-- Registries reachable from the empty one by sequential `execute()` calls. -/
inductive Reachable : Registry → Prop where
  | empty : Reachable Registry.empty
  | step (cmd : CommandOpts) (ic : IndividualConfig) (ao : ActionOutcome) (now : Nat)
      {reg : Registry} : Reachable reg → Reachable (executeCmd cmd ic reg ao now).reg

theorem getInstance_fst_counters (reg : Registry) (ic : IndividualConfig) (key : String)
    (r p s now : Nat) (hinv : RegInv reg) :
    (getInstance reg ic key r p s now).1.errorCalls ≤
      (getInstance reg ic key r p s now).1.totalCalls := by
  unfold getInstance
  cases h : reg.circuitInstances key with
  | none => exact Nat.le_refl 0
  | some inst =>
      dsimp only
      cases hd : reg.circuitData inst.commandkey with
      | none => exact hinv.1 key inst h
      | some st =>
          have hc := reloadStats_counters inst st now
          rw [hc.1, hc.2]
          exact hinv.2 _ st hd

theorem executeCmd_circuit_counters (cmd : CommandOpts) (ic : IndividualConfig)
    (reg : Registry) (ao : ActionOutcome) (now : Nat) (hinv : RegInv reg) :
    (executeCmd cmd ic reg ao now).circuit.errorCalls ≤
      (executeCmd cmd ic reg ao now).circuit.totalCalls := by
  have h0 := getInstance_fst_counters reg ic cmd.key cmd.requestVolumeThreshold
    cmd.errorThreshold cmd.sleepWindowInMillis now hinv
  cases ao with
  | success value =>
      unfold executeCmd
      dsimp only
      split
      · split
        · exact Nat.le_refl 0
        · exact Nat.le_succ_of_le h0
      · exact Nat.le_succ_of_le h0
  | failure err =>
      unfold executeCmd
      dsimp only
      split
      · split
        · exact Nat.le_succ_of_le h0
        · have hc := registerError_counters
            ((getInstance reg ic cmd.key cmd.requestVolumeThreshold cmd.errorThreshold
              cmd.sleepWindowInMillis now).1.registerCall)
            cmd.key cmd.errorThreshold cmd.sleepWindowInMillis now
            ((getInstance reg ic cmd.key cmd.requestVolumeThreshold cmd.errorThreshold
              cmd.sleepWindowInMillis now).2.circuitData)
          rw [hc.1, hc.2]
          exact Nat.succ_le_succ h0
      · exact Nat.le_succ_of_le h0

theorem executeCmd_preserves_RegInv (cmd : CommandOpts) (ic : IndividualConfig)
    (reg : Registry) (ao : ActionOutcome) (now : Nat) (hinv : RegInv reg) :
    RegInv (executeCmd cmd ic reg ao now).reg := by
  obtain ⟨-, h2, h3, h4⟩ := executeCmd_registry_char cmd ic reg ao now
  have hcirc := executeCmd_circuit_counters cmd ic reg ao now hinv
  constructor
  · intro k c hk
    by_cases hkey : k = cmd.key
    · subst hkey
      rw [h3] at hk
      injection hk with hh
      subst hh
      exact hcirc
    · rw [h4 k hkey] at hk
      exact hinv.1 k c hk
  · intro k s hk
    rw [h2] at hk
    unfold Circuit.finishWorkflow at hk
    by_cases hkey : k = (executeCmd cmd ic reg ao now).circuit.commandkey
    · rw [if_pos hkey] at hk
      injection hk with hh
      subst hh
      exact hcirc
    · rw [if_neg hkey] at hk
      exact hinv.2 k s hk

theorem reachable_RegInv {reg : Registry} (h : Reachable reg) : RegInv reg := by
  induction h with
  | empty =>
      exact ⟨fun k c hk => Option.noConfusion hk, fun k s hk => Option.noConfusion hk⟩
  | step cmd ic ao now hr ih =>
      exact executeCmd_preserves_RegInv _ _ _ _ _ ih

/-- A circuit at the `errorCalls = totalCalls` boundary. -/
def cEqualCounts : Circuit :=
  ⟨"k", CircuitStates.CLOSED, 1, 1, 5, 50, 10, none, false⟩

/-- C8 counterexample to the per-operation clause: from the legal state
`errorCalls = totalCalls = 1`, `registerErrorAndCalculateMetrics` alone yields
`errorCalls = 2 > 1 = totalCalls`, so that operation by itself does not preserve
`errorCalls ≤ totalCalls` (in the executor it is always preceded by
`registerCall`, which restores the slack). -/
theorem claim8_counterexample :
    cEqualCounts.errorCalls ≤ cEqualCounts.totalCalls ∧
    ¬ ((cEqualCounts.registerErrorAndCalculateMetrics "k" 0 0 0 dEmpty).1.errorCalls ≤
        (cEqualCounts.registerErrorAndCalculateMetrics "k" 0 0 0 dEmpty).1.totalCalls) := by
  have hc := registerError_counters cEqualCounts "k" 0 0 0 dEmpty
  rw [hc.1, hc.2]
  exact ⟨by decide, by decide⟩

/-- C8 (amended): every circuit and snapshot in a registry reachable by any
sequence of sequential `execute()` calls satisfies `errorCalls ≤ totalCalls`.
`registerCall` preserves the invariant and creates strict slack, `markSuccess`
resets to `0 ≤ 0`, `reloadStats` preserves it given a conforming snapshot (and is
the identity without one), `finishWorkflow` writes a conforming snapshot, and
`registerErrorAndCalculateMetrics` preserves it from every state with
`errorCalls < totalCalls` — which `registerCall` guarantees in every execution —
though not from the boundary `errorCalls = totalCalls`. -/
theorem claim8_invariant_reachable :
    (∀ reg, Reachable reg →
      (∀ k c, reg.circuitInstances k = some c → c.errorCalls ≤ c.totalCalls) ∧
      (∀ k s, reg.circuitData k = some s → s.errorCalls ≤ s.totalCalls)) ∧
    (∀ c : Circuit, c.errorCalls ≤ c.totalCalls →
      c.registerCall.errorCalls < c.registerCall.totalCalls) ∧
    (∀ (c : Circuit) (ck : String) (pArg sArg now : Nat)
        (data : String → Option CircuitStats), c.errorCalls < c.totalCalls →
      (c.registerErrorAndCalculateMetrics ck pArg sArg now data).1.errorCalls ≤
        (c.registerErrorAndCalculateMetrics ck pArg sArg now data).1.totalCalls) ∧
    (∀ c : Circuit, c.markSuccess.errorCalls ≤ c.markSuccess.totalCalls) ∧
    (∀ (c : Circuit) (st : CircuitStats) (now : Nat), st.errorCalls ≤ st.totalCalls →
      (c.reloadStats (some st) now).errorCalls ≤ (c.reloadStats (some st) now).totalCalls) ∧
    (∀ (c : Circuit) (now : Nat), c.reloadStats none now = c) ∧
    (∀ (c : Circuit) (data : String → Option CircuitStats), c.errorCalls ≤ c.totalCalls →
      c.finishWorkflow data c.commandkey = some (CircuitStats.ofCircuit c) ∧
      (CircuitStats.ofCircuit c).errorCalls ≤ (CircuitStats.ofCircuit c).totalCalls) := by
  refine ⟨fun reg hr => reachable_RegInv hr, fun c hc => Nat.lt_succ_of_le hc,
    fun c ck pArg sArg now data hc => ?_, fun c => Nat.le_refl 0,
    fun c st now hst => ?_, fun c now => rfl, fun c data hc => ⟨by simp [Circuit.finishWorkflow], hc⟩⟩
  · have h := registerError_counters c ck pArg sArg now data
    rw [h.1, h.2]
    exact hc
  · have h := reloadStats_counters c st now
    rw [h.1, h.2]
    exact hst

/-- The circuit stored for key "k" after one successful call on a fresh registry. -/
def cAfterOneSuccess : Circuit :=
  ⟨"k", CircuitStates.CLOSED, 1, 0, 1, 50, 10, none, false⟩

/-- Witness for C8: after one reachable step (a successful call on a fresh
registry), the stored circuit satisfies `errorCalls ≤ totalCalls`, and the
per-operation clauses hold at `cDemo`. -/
theorem claim8_invariant_reachable_witness :
    cAfterOneSuccess.errorCalls ≤ cAfterOneSuccess.totalCalls ∧
    cDemo.registerCall.errorCalls < cDemo.registerCall.totalCalls :=
  ⟨(claim8_invariant_reachable.1 _
      (Reachable.step cmdPlain icAbsent (ActionOutcome.success "ok") 0 Reachable.empty)).1
      "k" cAfterOneSuccess (by decide),
   claim8_invariant_reachable.2.1 cDemo (by decide)⟩

end Nobreak
